import Mathlib

/-!
Verification of the Product catalog CRUD service.

The development shallowly embeds the service's HTTP handler layer
(`src/service/routes.py`) and the Product entity/repository operations it
delegates to.  The repository's model module (`service/models.py`) is not part
of the source tree that was provided — only its tests and callers are — so the
entity operations (`serialize`, `deserialize`, `create`, `update`, `delete`,
`find`, `all`) are modelled from the specification's §3, §4.1 and §6; each such
definition carries a doc comment starting with `Modelled from the spec:`.
The handler functions are translated directly from `routes.py`.
-/

/-! ### Exact decimal numbers and their wire representation

The spec (§3) requires `price` to be an exact decimal, serialized as a
decimal string (§6).  `Decimal` represents `units / 10 ^ scale`, printed with
exactly `scale` fractional digits. -/

/-- Modelled from the spec: an exact decimal number (`price`, §3), the value
`units / 10 ^ scale`. -/
structure Decimal where
  units : Int
  scale : Nat
deriving DecidableEq, Repr

/-- Little-endian base-10 digits of `n`, with explicit fuel so the function is
structurally recursive (the fuel `n` itself always suffices). -/
def natDigitsRev : Nat → Nat → List Nat
  | _, 0 => []
  | 0, _ + 1 => []
  | f + 1, n + 1 => ((n + 1) % 10) :: natDigitsRev f ((n + 1) / 10)

/-- Little-endian base-10 digits of `n` (empty for `0`). -/
def natDigits (n : Nat) : List Nat := natDigitsRev n n

/-- Value of a little-endian base-10 digit list. -/
def ofDigitsRev : List Nat → Nat
  | [] => 0
  | d :: ds => d + 10 * ofDigitsRev ds

/-- Character for a single decimal digit. -/
def digitChar (d : Nat) : Char := Char.ofNat (48 + d)

/-- Numeric value of a decimal digit character. -/
def charDigit (c : Char) : Nat := c.toNat - 48

/-- Little-endian digits of `n` padded with zeros to length at least
`scale + 1`, so the rendering always has at least one integer digit. -/
def natPaddedDigits (n scale : Nat) : List Nat :=
  natDigits n ++ List.replicate (scale + 1 - (natDigits n).length) 0

/-- Render `n / 10 ^ scale` with exactly `scale` fractional digits. -/
def renderNat (n scale : Nat) : List Char :=
  let padded := natPaddedDigits n scale
  let intChars := ((padded.drop scale).map digitChar).reverse
  let fracChars := ((padded.take scale).map digitChar).reverse
  if scale = 0 then intChars else intChars ++ '.' :: fracChars

/-- Modelled from the spec: the decimal-string wire form of a `price`
(§6, `"price": string (decimal)`). -/
def Decimal.render (d : Decimal) : List Char :=
  if d.units < 0 then '-' :: renderNat d.units.natAbs d.scale
  else renderNat d.units.natAbs d.scale

/-- Interpret a nonempty string of digit characters as a natural number. -/
def charsToNat? (cs : List Char) : Option Nat :=
  if cs.isEmpty then none
  else if cs.all Char.isDigit then some (ofDigitsRev ((cs.map charDigit).reverse))
  else none

/-- Parse an unsigned decimal string, recording the number of fractional
digits as the scale. -/
def parsePositive (cs : List Char) : Option Decimal :=
  let intPart := cs.takeWhile (· != '.')
  match cs.dropWhile (· != '.') with
  | [] => (charsToNat? intPart).map fun n => ⟨Int.ofNat n, 0⟩
  | _ :: fracPart =>
    if fracPart.all (· != '.') then
      (charsToNat? (intPart ++ fracPart)).map fun n => ⟨Int.ofNat n, fracPart.length⟩
    else none

/-- Modelled from the spec: parsing of the decimal string wire form of a
`price` back into an exact decimal (the `Decimal(...)` conversion performed
during deserialization). -/
def Decimal.parse? (cs : List Char) : Option Decimal :=
  if cs.head? = some '-' then
    (parsePositive (cs.drop 1)).map fun d => ⟨-d.units, d.scale⟩
  else parsePositive cs

/-! ### The Product entity and its wire representation -/

/-- Modelled from the spec: the closed category enumeration (§3), with
`UNKNOWN` as the default/sentinel member. -/
inductive Category
  | UNKNOWN
  | CLOTHS
  | FOOD
deriving DecidableEq, Repr

/-- Modelled from the spec: the name string of a category member (§6,
`"category": string (enum name)`). -/
def Category.name : Category → String
  | .UNKNOWN => "UNKNOWN"
  | .CLOTHS => "CLOTHS"
  | .FOOD => "FOOD"

/-- Modelled from the spec: lookup of a string against the enumeration (§9);
unknown strings are rejected, not coerced (§3). -/
def Category.fromName? (s : String) : Option Category :=
  match s with
  | "UNKNOWN" => some .UNKNOWN
  | "CLOTHS" => some .CLOTHS
  | "FOOD" => some .FOOD
  | _ => none

/-- Modelled from the spec: the Product entity (§3): surrogate `id` absent
before creation, required `name`, optional `description`, exact-decimal
`price`, strict boolean `available`, and enumerated `category`. -/
structure Product where
  id : Option Int
  name : String
  description : String
  price : Decimal
  available : Bool
  category : Category
deriving DecidableEq, Repr

/-- JSON values as exchanged on the wire (§6). -/
inductive Json
  | str (s : String)
  | num (d : Decimal)
  | bool (b : Bool)
  | null
  | arr (elems : List Json)
  | obj (fields : List (String × Json))

/-- String content of a JSON value; the spec fixes no behavior for non-string
values in string positions, so those yield the empty string. -/
def Json.asString : Json → String
  | .str s => s
  | _ => ""

/-- Decimal content of a JSON value in the `price` position: decimal strings
are parsed, numbers are taken as-is; the spec fixes no failure mode for a
malformed `price`, so anything else yields the zero decimal. -/
def Json.asDecimal : Json → Decimal
  | .str s => (Decimal.parse? s.data).getD ⟨0, 0⟩
  | .num d => d
  | _ => ⟨0, 0⟩

/-- Modelled from the spec: the validation-error outcome of entity and
repository operations (§7), described by a message naming the offense. -/
structure DataValidationError where
  msg : String
deriving DecidableEq, Repr

/-- Modelled from the spec: `serialize()` converts a Product to a mapping of
field name → JSON-safe value — price as its decimal string, category as its
name string, available as a boolean (§4.1, §6). -/
def Product.serialize (p : Product) : Json :=
  .obj [
    ("id", match p.id with
      | some i => .num ⟨i, 0⟩
      | none => .null),
    ("name", .str p.name),
    ("description", .str p.description),
    ("price", .str (String.mk p.price.render)),
    ("available", .bool p.available),
    ("category", .str p.category.name)]

/-- Modelled from the spec: `deserialize(mapping)` is the strict inverse of
`serialize` (§4.1).  It fails with a validation error when the input is not a
mapping at all, when a required key (`name`, `price`, `available`, `category`)
is absent, when `available` is present but not a genuine boolean, or when
`category` names a value outside the enumeration; otherwise it succeeds with
the fully-populated entity (mutation-in-place plus return: an unsupplied
`description` and the store-assigned `id` keep their prior values). -/
def Product.deserialize (p : Product) (data : Json) :
    Except DataValidationError Product :=
  match data with
  | .obj fields =>
    match fields.lookup "name" with
    | none => .error ⟨"Invalid product: missing name"⟩
    | some nameVal =>
      match fields.lookup "price" with
      | none => .error ⟨"Invalid product: missing price"⟩
      | some priceVal =>
        match fields.lookup "available" with
        | none => .error ⟨"Invalid product: missing available"⟩
        | some availVal =>
          match availVal with
          | .bool b =>
            match fields.lookup "category" with
            | none => .error ⟨"Invalid product: missing category"⟩
            | some catVal =>
              match Category.fromName? catVal.asString with
              | none => .error ⟨"Invalid attribute: category"⟩
              | some c =>
                .ok { p with
                  name := nameVal.asString
                  description :=
                    ((fields.lookup "description").map Json.asString).getD p.description
                  price := priceVal.asDecimal
                  available := b
                  category := c }
          | _ => .error ⟨"Invalid type for boolean [available]"⟩
  | _ => .error ⟨"Invalid product: body contained bad or no data"⟩

/-! ### Repository operations

The store is the list of persisted rows, threaded explicitly through the
operations and the handlers. -/

/-- Modelled from the spec: `all()` returns every row as Product entities
(§4.1). -/
def Product.all (store : List Product) : List Product := store

/-- Modelled from the spec: `find_by_id(id)` / `find` returns the Product or
a not-found indicator, never raising for missing rows (§4.1). -/
def Product.find (store : List Product) (product_id : Int) : Option Product :=
  store.find? fun p => p.id == some product_id

/-- Modelled from the spec: `find_by_name(name)` returns all Products whose
name exactly equals `name` (§4.1). -/
def Product.find_by_name (store : List Product) (name : String) : List Product :=
  store.filter fun p => p.name == name

/-- Modelled from the spec: `find_by_category(category)` returns all Products
whose category equals the given enum value (§4.1). -/
def Product.find_by_category (store : List Product) (category : Category) :
    List Product :=
  store.filter fun p => p.category == category

/-- The id the store assigns to the next inserted row: one above the largest
assigned id, hence previously unused (§8). -/
def nextId (store : List Product) : Int :=
  store.foldr (fun p acc => max acc (p.id.getD 0)) 0 + 1

/-- Modelled from the spec: `create(product)` inserts a new row and assigns
the generated, previously-unused, non-null id (§4.1, §8). -/
def Product.create (store : List Product) (p : Product) : Product × List Product :=
  let assigned := { p with id := some (nextId store) }
  (assigned, store ++ [assigned])

/-- Modelled from the spec: `update(product)` requires `product.id` to be set
and non-null; if null, it fails with a validation error; otherwise it
overwrites the row (§4.1). -/
def Product.update (store : List Product) (p : Product) :
    Except DataValidationError (List Product) :=
  match p.id with
  | none => .error ⟨"Update called with empty ID field"⟩
  | some _ => .ok (store.map fun q => if q.id == p.id then p else q)

/-- Modelled from the spec: `delete(product)` removes the row matching
`product.id`; idempotent no-op if already absent (§4.1). -/
def Product.delete (store : List Product) (p : Product) : List Product :=
  store.filter fun q => q.id != p.id

/-- A freshly constructed, unpersisted Product (`Product()` in the create
handler): no id and default field values. -/
def Product.new : Product := ⟨none, "", "", ⟨0, 0⟩, false, .UNKNOWN⟩

/-! ### HTTP handler layer, translated from `src/service/routes.py` -/

/-- An HTTP response: status code, optional JSON body (`none` models an empty
or framework-generated error body), and optional `Location` header. -/
structure HttpResponse where
  status : Nat
  body : Option Json
  location : Option String

/-- Translated from `routes.py` `check_content_type`: a missing `Content-Type`
header aborts 415 with a message naming the expected type, a mismatched one
aborts 415 with the same message, an exact match passes.  `some (status, msg)`
models `abort(status, msg)`; `none` models passing the check. -/
def check_content_type (headers : List (String × String)) (content_type : String) :
    Option (Nat × String) :=
  match headers.lookup "Content-Type" with
  | none => some (415, "Content-Type must be " ++ content_type)
  | some v =>
    if v = content_type then none
    else some (415, "Content-Type must be " ++ content_type)

/-- Translated from `routes.py` `create_products` (POST `/products`): checks
the content type, deserializes the body into a fresh Product, persists it, and
responds 201 with the serialized product and the constant `Location` `"/"`
(the `location_url = "/"` placeholder left in the source until READ is wired
into `url_for`).  A validation error raised by `deserialize` maps to 400 (§7
propagation policy; the error-handler module is not in the provided source). -/
def create_products (store : List Product) (headers : List (String × String))
    (body : Json) : HttpResponse × List Product :=
  match check_content_type headers "application/json" with
  | some (st, msg) => (⟨st, some (.str msg), none⟩, store)
  | none =>
    match Product.new.deserialize body with
    | .error e => (⟨400, some (.str e.msg), none⟩, store)
    | .ok product =>
      let (created, store2) := Product.create store product
      (⟨201, some created.serialize, some "/"⟩, store2)

/-- Translated from `routes.py` `get_all_products` (GET `/products`): fetches
all products, aborts 404 when there are fewer than one, and otherwise responds
200 with the serializations of every product.  The request's query parameters
(`name`, `category`) are passed in because the request carries them, but the
handler body never reads `request.args`. -/
def get_all_products (store : List Product)
    (queryName queryCategory : Option String) : HttpResponse :=
  let products := Product.all store
  if products.length < 1 then ⟨404, none, none⟩
  else ⟨200, some (.arr (products.map Product.serialize)), none⟩

/-- Relative form of the `url_for(..., product_id=product_id, _external=True)`
value used for the `Location` header of the update and delete handlers. -/
def url_for_product (product_id : Int) : String :=
  "/products/" ++ toString product_id

/-- Translated from `routes.py` `update_products` (PUT `/products/<id>`):
checks the content type, looks the product up (aborting 404 when absent),
deserializes the request body into it, persists the update, and responds 200
with the updated serialization and a `Location` header.  Validation errors map
to 400 (§7). -/
def update_products (store : List Product) (product_id : Int)
    (headers : List (String × String)) (body : Json) : HttpResponse × List Product :=
  match check_content_type headers "application/json" with
  | some (st, msg) => (⟨st, some (.str msg), none⟩, store)
  | none =>
    match Product.find store product_id with
    | none => (⟨404, none, none⟩, store)
    | some product =>
      match product.deserialize body with
      | .error e => (⟨400, some (.str e.msg), none⟩, store)
      | .ok updated =>
        match Product.update store updated with
        | .error e => (⟨400, some (.str e.msg), none⟩, store)
        | .ok store2 =>
          (⟨200, some updated.serialize, some (url_for_product product_id)⟩, store2)

/-- Translated from `routes.py` `delete_product` (DELETE `/products/<id>`):
looks the product up (aborting 404 when absent), deletes it, and responds 204
with an empty body and a `Location` header. -/
def delete_product (store : List Product) (product_id : Int) :
    HttpResponse × List Product :=
  match Product.find store product_id with
  | none => (⟨404, none, none⟩, store)
  | some product =>
    (⟨204, none, some (url_for_product product_id)⟩, Product.delete store product)

/-! ### Sample data for concrete witnesses -/

/-- A sample persisted product (the spec's §8 POST scenario, persisted with
id 1). -/
def hatProduct : Product :=
  { id := some 1, name := "Fedora", description := "A red hat",
    price := ⟨1250, 2⟩, available := true, category := .CLOTHS }

/-- A second sample persisted product with a different name and category. -/
def breadProduct : Product :=
  { id := some 2, name := "Bread", description := "A loaf",
    price := ⟨500, 2⟩, available := false, category := .FOOD }

/-- The wire payload of the spec's §8 POST scenario. -/
def hatPayload : Json :=
  .obj [("name", .str "Fedora"), ("description", .str "A red hat"),
    ("price", .str "12.50"), ("available", .bool true),
    ("category", .str "CLOTHS")]

/-- The §8 PUT scenario body: the serialized product with the description
changed to `unknown`. -/
def updatePayload : Json :=
  .obj [("name", .str "Fedora"), ("description", .str "unknown"),
    ("price", .str "12.50"), ("available", .bool true),
    ("category", .str "CLOTHS")]

/-! ### The deserialization contract -/

/-- Whether a JSON value is a genuine boolean. -/
def Json.isBool : Json → Bool
  | .bool _ => true
  | _ => false

/-- The specification's deserialization failure condition, stated from the
spec's words (§4.1): the input is not a mapping at all, a required key
(`name`, `price`, `available`, `category`) is absent, `available` is present
but not a genuine boolean, or `category` names a value outside the
enumeration. -/
def deserializeRejects (data : Json) : Bool :=
  match data with
  | .obj fields =>
    (fields.lookup "name").isNone || (fields.lookup "price").isNone ||
    (match fields.lookup "available" with
     | none => true
     | some v => ! v.isBool) ||
    (match fields.lookup "category" with
     | none => true
     | some v => (Category.fromName? v.asString).isNone)
  | _ => true

theorem ofDigitsRev_natDigitsRev : ∀ (f n : Nat), n ≤ f →
    ofDigitsRev (natDigitsRev f n) = n := by
  intro f
  induction f with
  | zero =>
    intro n hn
    interval_cases n
    rfl
  | succ f ih =>
    intro n hn
    match n with
    | 0 => rfl
    | n + 1 =>
      have hdiv : (n + 1) / 10 ≤ f := by
        have := Nat.div_lt_self (Nat.succ_pos n) (by norm_num : 1 < 10)
        omega
      simp only [natDigitsRev, ofDigitsRev, ih _ hdiv]
      omega

theorem ofDigitsRev_natDigits (n : Nat) : ofDigitsRev (natDigits n) = n :=
  ofDigitsRev_natDigitsRev n n (Nat.le_refl n)

theorem natDigitsRev_lt_ten : ∀ (f n : Nat), ∀ d ∈ natDigitsRev f n, d < 10 := by
  intro f
  induction f with
  | zero =>
    intro n d hd
    match n with
    | 0 => simp [natDigitsRev] at hd
    | _ + 1 => simp [natDigitsRev] at hd
  | succ f ih =>
    intro n d hd
    match n with
    | 0 => simp [natDigitsRev] at hd
    | n + 1 =>
      simp only [natDigitsRev, List.mem_cons] at hd
      rcases hd with h | h
      · subst h; exact Nat.mod_lt _ (by norm_num)
      · exact ih _ d h

theorem ofDigitsRev_append (a b : List Nat) :
    ofDigitsRev (a ++ b) = ofDigitsRev a + 10 ^ a.length * ofDigitsRev b := by
  induction a with
  | nil => simp [ofDigitsRev]
  | cons d t ih =>
    rw [List.cons_append]
    show d + 10 * ofDigitsRev (t ++ b) = d + 10 * ofDigitsRev t + 10 ^ (t.length + 1) * ofDigitsRev b
    rw [ih]
    ring

theorem ofDigitsRev_replicate_zero (k : Nat) :
    ofDigitsRev (List.replicate k 0) = 0 := by
  induction k with
  | zero => rfl
  | succ k ih => simp [List.replicate, ofDigitsRev, ih]

theorem digitChar_isDigit {d : Nat} (h : d < 10) : (digitChar d).isDigit = true := by
  interval_cases d <;> decide

theorem digitChar_ne_dot {d : Nat} (h : d < 10) : digitChar d ≠ '.' := by
  interval_cases d <;> decide

theorem digitChar_ne_dash {d : Nat} (h : d < 10) : digitChar d ≠ '-' := by
  interval_cases d <;> decide

theorem charDigit_digitChar {d : Nat} (h : d < 10) : charDigit (digitChar d) = d := by
  interval_cases d <;> decide

theorem natPaddedDigits_lt_ten (n scale : Nat) :
    ∀ d ∈ natPaddedDigits n scale, d < 10 := by
  intro d hd
  rcases List.mem_append.mp hd with h | h
  · exact natDigitsRev_lt_ten _ _ d h
  · rw [List.eq_of_mem_replicate h]; norm_num

theorem natPaddedDigits_length (n scale : Nat) :
    scale + 1 ≤ (natPaddedDigits n scale).length := by
  simp only [natPaddedDigits, List.length_append, List.length_replicate]
  omega

theorem ofDigitsRev_natPaddedDigits (n scale : Nat) :
    ofDigitsRev (natPaddedDigits n scale) = n := by
  simp only [natPaddedDigits]
  rw [ofDigitsRev_append, ofDigitsRev_natDigits, ofDigitsRev_replicate_zero]
  ring

theorem takeWhile_ne_dot_all (l : List Char) (h : ∀ c ∈ l, c ≠ '.') :
    l.takeWhile (· != '.') = l := by
  rw [List.takeWhile_eq_self_iff]
  intro c hc
  simpa using h c hc

theorem dropWhile_ne_dot_all (l : List Char) (h : ∀ c ∈ l, c ≠ '.') :
    l.dropWhile (· != '.') = [] := by
  rw [List.dropWhile_eq_nil_iff]
  intro c hc
  simpa using h c hc

theorem takeWhile_ne_dot_append (l r : List Char) (h : ∀ c ∈ l, c ≠ '.') :
    (l ++ '.' :: r).takeWhile (· != '.') = l := by
  induction l with
  | nil => simp
  | cons a t ih =>
    have ha : (a != '.') = true := by simpa using h a (List.mem_cons_self a t)
    rw [List.cons_append, List.takeWhile_cons,
      ih (fun c hc => h c (List.mem_cons_of_mem a hc))]
    simp [ha]

theorem dropWhile_ne_dot_append (l r : List Char) (h : ∀ c ∈ l, c ≠ '.') :
    (l ++ '.' :: r).dropWhile (· != '.') = '.' :: r := by
  induction l with
  | nil => simp
  | cons a t ih =>
    have ha : (a != '.') = true := by simpa using h a (List.mem_cons_self a t)
    simp only [List.cons_append, List.dropWhile_cons, ha]
    exact ih (fun c hc => h c (List.mem_cons_of_mem a hc))

theorem charsToNat_mapDigitChar (ds : List Nat) (hne : ds ≠ [])
    (hlt : ∀ d ∈ ds, d < 10) :
    charsToNat? ((ds.map digitChar).reverse) = some (ofDigitsRev ds) := by
  have hmap : ((ds.map digitChar).reverse.map charDigit).reverse = ds := by
    rw [List.map_reverse, List.reverse_reverse, List.map_map]
    calc ds.map (charDigit ∘ digitChar) = ds.map id := by
          apply List.map_congr_left
          intro d hd
          exact charDigit_digitChar (hlt d hd)
      _ = ds := List.map_id ds
  have hemp : ((ds.map digitChar).reverse.isEmpty) = false := by
    cases ds with
    | nil => exact absurd rfl hne
    | cons d t => simp [List.isEmpty_iff]
  have hall : ((ds.map digitChar).reverse.all Char.isDigit) = true := by
    rw [List.all_eq_true]
    intro c hc
    rw [List.mem_reverse, List.mem_map] at hc
    obtain ⟨d, hd, rfl⟩ := hc
    exact digitChar_isDigit (hlt d hd)
  rw [charsToNat?, hemp, hall, hmap]
  rfl

theorem mem_renderNat (n scale : Nat) (c : Char) (hc : c ∈ renderNat n scale) :
    c.isDigit = true ∨ c = '.' := by
  have hdig : ∀ d ∈ natPaddedDigits n scale, (digitChar d).isDigit = true :=
    fun d hd => digitChar_isDigit (natPaddedDigits_lt_ten n scale d hd)
  simp only [renderNat] at hc
  by_cases hs : scale = 0
  · rw [if_pos hs] at hc
    rw [List.mem_reverse, List.mem_map] at hc
    obtain ⟨d, hd, rfl⟩ := hc
    exact Or.inl (hdig d (List.mem_of_mem_drop hd))
  · rw [if_neg hs] at hc
    rcases List.mem_append.mp hc with h | h
    · rw [List.mem_reverse, List.mem_map] at h
      obtain ⟨d, hd, rfl⟩ := h
      exact Or.inl (hdig d (List.mem_of_mem_drop hd))
    · rcases List.mem_cons.mp h with h | h
      · exact Or.inr h
      · rw [List.mem_reverse, List.mem_map] at h
        obtain ⟨d, hd, rfl⟩ := h
        exact Or.inl (hdig d (List.mem_of_mem_take hd))

theorem parsePositive_no_dot (cs : List Char) (h : ∀ c ∈ cs, c ≠ '.') :
    parsePositive cs = (charsToNat? cs).map fun n => ⟨Int.ofNat n, 0⟩ := by
  simp only [parsePositive, takeWhile_ne_dot_all cs h, dropWhile_ne_dot_all cs h]

theorem parsePositive_with_dot (l r : List Char) (hl : ∀ c ∈ l, c ≠ '.')
    (hr : ∀ c ∈ r, c ≠ '.') :
    parsePositive (l ++ '.' :: r) =
      (charsToNat? (l ++ r)).map fun n => ⟨Int.ofNat n, r.length⟩ := by
  have hall : r.all (· != '.') = true := by
    rw [List.all_eq_true]
    intro c hc
    simpa using hr c hc
  simp only [parsePositive, takeWhile_ne_dot_append l r hl,
    dropWhile_ne_dot_append l r hl, hall, if_true]

theorem parsePositive_renderNat (n scale : Nat) :
    parsePositive (renderNat n scale) = some ⟨Int.ofNat n, scale⟩ := by
  have hlt := natPaddedDigits_lt_ten n scale
  have hlen := natPaddedDigits_length n scale
  have hne : natPaddedDigits n scale ≠ [] := by
    intro h
    rw [h] at hlen
    simp at hlen
  by_cases hs : scale = 0
  · subst hs
    have hchars : ∀ c ∈ ((natPaddedDigits n 0).map digitChar).reverse, c ≠ '.' := by
      intro c hc
      rw [List.mem_reverse, List.mem_map] at hc
      obtain ⟨d, hd, rfl⟩ := hc
      exact digitChar_ne_dot (hlt d hd)
    have hrender : renderNat n 0 = ((natPaddedDigits n 0).map digitChar).reverse := by
      simp [renderNat]
    rw [hrender, parsePositive_no_dot _ hchars, charsToNat_mapDigitChar _ hne hlt,
      ofDigitsRev_natPaddedDigits]
    rfl
  · have hip : ∀ c ∈ (((natPaddedDigits n scale).drop scale).map digitChar).reverse,
        c ≠ '.' := by
      intro c hc
      rw [List.mem_reverse, List.mem_map] at hc
      obtain ⟨d, hd, rfl⟩ := hc
      exact digitChar_ne_dot (hlt d (List.mem_of_mem_drop hd))
    have hfp : ∀ c ∈ (((natPaddedDigits n scale).take scale).map digitChar).reverse,
        c ≠ '.' := by
      intro c hc
      rw [List.mem_reverse, List.mem_map] at hc
      obtain ⟨d, hd, rfl⟩ := hc
      exact digitChar_ne_dot (hlt d (List.mem_of_mem_take hd))
    have hrender : renderNat n scale =
        (((natPaddedDigits n scale).drop scale).map digitChar).reverse ++
          '.' :: (((natPaddedDigits n scale).take scale).map digitChar).reverse := by
      simp [renderNat, hs]
    have hjoin : (((natPaddedDigits n scale).drop scale).map digitChar).reverse ++
        (((natPaddedDigits n scale).take scale).map digitChar).reverse =
        ((natPaddedDigits n scale).map digitChar).reverse := by
      rw [← List.reverse_append, ← List.map_append, List.take_append_drop]
    have hlenfrac : ((((natPaddedDigits n scale).take scale).map digitChar).reverse).length
        = scale := by
      rw [List.length_reverse, List.length_map, List.length_take]
      omega
    rw [hrender, parsePositive_with_dot _ _ hip hfp, hjoin,
      charsToNat_mapDigitChar _ hne hlt, ofDigitsRev_natPaddedDigits]
    simp only [Option.map_some', hlenfrac]

theorem renderNat_head_not_dash (n scale : Nat) :
    ¬ (renderNat n scale).head? = some '-' := by
  intro h
  have hmem : '-' ∈ renderNat n scale := by
    cases hcs : renderNat n scale with
    | nil => rw [hcs] at h; simp at h
    | cons a t =>
      rw [hcs] at h
      simp only [List.head?_cons, Option.some_inj] at h
      subst h
      exact List.mem_cons_self _ _
  rcases mem_renderNat n scale _ hmem with h | h <;> simp at h

/-- Round trip of the decimal wire format: parsing a rendered decimal
recovers it exactly. -/
theorem Decimal.parse_render (d : Decimal) : Decimal.parse? d.render = some d := by
  obtain ⟨u, s⟩ := d
  by_cases hu : u < 0
  · have hrender : Decimal.render ⟨u, s⟩ = '-' :: renderNat u.natAbs s := by
      simp [Decimal.render, hu]
    rw [hrender]
    simp only [Decimal.parse?, List.head?_cons, List.drop_succ_cons, List.drop_zero,
      if_true, parsePositive_renderNat, Option.map_some']
    have habs : -Int.ofNat u.natAbs = u := by
      rw [Int.ofNat_eq_natCast]
      omega
    rw [habs]
  · have hrender : Decimal.render ⟨u, s⟩ = renderNat u.natAbs s := by
      simp [Decimal.render, hu]
    rw [hrender]
    simp only [Decimal.parse?, if_neg (renderNat_head_not_dash u.natAbs s),
      parsePositive_renderNat]
    have habs : Int.ofNat u.natAbs = u := by
      rw [Int.ofNat_eq_natCast]
      omega
    rw [habs]

theorem Category.fromName_name (c : Category) : Category.fromName? c.name = some c := by
  cases c <;> rfl

/-! ### Claims about the list endpoint -/

/-- C1: the GET `/products` handler evaluated at the failing input.  With two
products of different names in the store, a request carrying
`name=Fedora` returns 200 with the serializations of BOTH products, even
though `breadProduct` is not named `Fedora` — the handler never reads the
`name` query parameter, so the body is not "exactly the serialized products
whose name equals that string". -/
theorem get_all_products_ignores_name_query :
    get_all_products [hatProduct, breadProduct] (some "Fedora") none =
      ⟨200, some (.arr [hatProduct.serialize, breadProduct.serialize]), none⟩ ∧
    breadProduct.name ≠ "Fedora" := by
  exact ⟨rfl, by decide⟩

/-- C2: the GET `/products` handler evaluated at the failing inputs.  With a
`category=CLOTHS` query it returns 200 with both products even though
`breadProduct` is of a different category, and with the non-enum
`category=MACHINE` query it returns 200 with all products instead of 400 —
the handler never resolves the `category` parameter against the
enumeration. -/
theorem get_all_products_ignores_category_query :
    get_all_products [hatProduct, breadProduct] none (some "CLOTHS") =
      ⟨200, some (.arr [hatProduct.serialize, breadProduct.serialize]), none⟩ ∧
    get_all_products [hatProduct, breadProduct] none (some "MACHINE") =
      ⟨200, some (.arr [hatProduct.serialize, breadProduct.serialize]), none⟩ ∧
    breadProduct.category ≠ .CLOTHS ∧
    Category.fromName? "MACHINE" = none := by
  exact ⟨rfl, rfl, by decide, rfl⟩

/-- C6: GET `/products` responds 404 when the store holds zero products, and
200 with a JSON array of every product's serialization when it holds at
least one. -/
theorem get_all_products_empty_contract (store : List Product)
    (queryName queryCategory : Option String) :
    (store = [] →
      get_all_products store queryName queryCategory = ⟨404, none, none⟩) ∧
    (store ≠ [] →
      get_all_products store queryName queryCategory =
        ⟨200, some (.arr ((Product.all store).map Product.serialize)), none⟩) := by
  constructor
  · intro h
    subst h
    rfl
  · intro h
    have hlen : ¬ (Product.all store).length < 1 := by
      have := List.length_pos.mpr h
      simp only [Product.all]
      omega
    simp only [get_all_products, if_neg hlen]

/-- Witness for C6 at concrete stores. -/
theorem get_all_products_empty_contract_witness :
    get_all_products [] none none = ⟨404, none, none⟩ ∧
    get_all_products [hatProduct] none none =
      ⟨200, some (.arr [hatProduct.serialize]), none⟩ :=
  ⟨(get_all_products_empty_contract [] none none).1 rfl,
   (get_all_products_empty_contract [hatProduct] none none).2 (by decide)⟩

/-! ### Content-type checking -/

/-- C7: for the write verbs (POST `/products`, PUT `/products/<id>`), a
missing `Content-Type` header and one that is not exactly `application/json`
produce the same outcome — 415 with a message naming the expected type —
while a header exactly equal to `application/json` passes the check. -/
theorem check_content_type_contract (headers : List (String × String))
    (store : List Product) (product_id : Int) (body : Json) :
    ((headers.lookup "Content-Type" = none ∨
      (∃ v, headers.lookup "Content-Type" = some v ∧ v ≠ "application/json")) →
      check_content_type headers "application/json" =
        some (415, "Content-Type must be application/json") ∧
      (create_products store headers body).1 =
        ⟨415, some (.str "Content-Type must be application/json"), none⟩ ∧
      (update_products store product_id headers body).1 =
        ⟨415, some (.str "Content-Type must be application/json"), none⟩) ∧
    (headers.lookup "Content-Type" = some "application/json" →
      check_content_type headers "application/json" = none) := by
  constructor
  · intro h
    have hcc : check_content_type headers "application/json" =
        some (415, "Content-Type must be application/json") := by
      rcases h with h | ⟨v, hv, hne⟩
      · simp only [check_content_type, h]
        rfl
      · simp only [check_content_type, hv, if_neg hne]
        rfl
    refine ⟨hcc, ?_, ?_⟩
    · simp only [create_products, hcc]
    · simp only [update_products, hcc]
  · intro h
    simp only [check_content_type, h, if_pos]

/-- Witness for C7: a wrong content type, a missing one, and the exact one. -/
theorem check_content_type_contract_witness :
    check_content_type [("Content-Type", "text/html")] "application/json" =
      some (415, "Content-Type must be application/json") ∧
    check_content_type [] "application/json" =
      some (415, "Content-Type must be application/json") ∧
    check_content_type [("Content-Type", "application/json")] "application/json" =
      none :=
  ⟨((check_content_type_contract [("Content-Type", "text/html")] [] 0 Json.null).1
      (Or.inr ⟨"text/html", rfl, by decide⟩)).1,
   ((check_content_type_contract [] [] 0 Json.null).1 (Or.inl rfl)).1,
   (check_content_type_contract [("Content-Type", "application/json")] [] 0 Json.null).2
      rfl⟩

/-! ### Deletion -/

theorem find_after_delete (store : List Product) (p : Product) (i : Int)
    (hp : p.id = some i) :
    Product.find (Product.delete store p) i = none := by
  rw [Product.find, List.find?_eq_none]
  intro q hq
  rw [Product.delete, List.mem_filter] at hq
  have hne : q.id ≠ p.id := by simpa using hq.2
  simp only [beq_iff_eq]
  rw [hp] at hne
  exact hne

/-- C8: DELETE `/products/<id>` responds 204 with an empty body and removes
the product when one with that id exists, and 404 when none does; deleting
the same id twice yields 204 then 404. -/
theorem delete_product_contract (store : List Product) (product_id : Int) :
    (Product.find store product_id = none →
      delete_product store product_id = (⟨404, none, none⟩, store)) ∧
    (∀ p, Product.find store product_id = some p →
      (delete_product store product_id).1.status = 204 ∧
      (delete_product store product_id).1.body = none ∧
      Product.find (delete_product store product_id).2 product_id = none ∧
      (delete_product (delete_product store product_id).2 product_id).1.status
        = 404) := by
  constructor
  · intro h
    simp only [delete_product, h]
  · intro p hp
    have hid : p.id = some product_id := by
      have := List.find?_some hp
      simpa using this
    have hgone : Product.find (Product.delete store p) product_id = none :=
      find_after_delete store p product_id hid
    simp [delete_product, hp, hgone]

/-- Witness for C8: deleting id 1 from a one-product store gives 204 and the
second deletion gives 404; deleting from the empty store gives 404. -/
theorem delete_product_contract_witness :
    (delete_product [hatProduct] 1).1.status = 204 ∧
    (delete_product (delete_product [hatProduct] 1).2 1).1.status = 404 ∧
    delete_product [] 1 = (⟨404, none, none⟩, []) :=
  ⟨((delete_product_contract [hatProduct] 1).2 hatProduct rfl).1,
   ((delete_product_contract [hatProduct] 1).2 hatProduct rfl).2.2.2,
   (delete_product_contract [] 1).1 rfl⟩

/-! ### Creation -/

theorem check_content_type_some_eq (headers : List (String × String))
    (ct : String) (st : Nat) (msg : String)
    (h : check_content_type headers ct = some (st, msg)) :
    st = 415 ∧ msg = "Content-Type must be " ++ ct := by
  unfold check_content_type at h
  split at h
  · injection h with h2
    injection h2 with ha hb
    exact ⟨ha.symm, hb.symm⟩
  · split at h
    · exact Option.noConfusion h
    · injection h with h2
      injection h2 with ha hb
      exact ⟨ha.symm, hb.symm⟩

/-- C10: every successful POST `/products` (status 201) carries the constant
`Location` header `"/"` rather than a URL identifying the new product, and
the store-assigned id appears in the response body's `id` field — the only
place the response exposes it. -/
theorem create_products_location_is_root (store : List Product)
    (headers : List (String × String)) (body : Json)
    (h : (create_products store headers body).1.status = 201) :
    (create_products store headers body).1.location = some "/" ∧
    (∃ fields, (create_products store headers body).1.body = some (.obj fields) ∧
      fields.lookup "id" = some (.num ⟨nextId store, 0⟩)) := by
  cases hcc : check_content_type headers "application/json" with
  | some v =>
    exfalso
    obtain ⟨st, msg⟩ := v
    have hst := (check_content_type_some_eq headers "application/json" st msg hcc).1
    simp only [create_products, hcc] at h
    omega
  | none =>
    cases hdes : Product.new.deserialize body with
    | error e =>
      exfalso
      simp only [create_products, hcc, hdes] at h
      omega
    | ok product =>
      have hred : create_products store headers body =
          (⟨201, some (Product.serialize { product with id := some (nextId store) }),
             some "/"⟩, store ++ [{ product with id := some (nextId store) }]) := by
        simp only [create_products, hcc, hdes, Product.create]
      rw [hred]
      exact ⟨rfl, ⟨_, rfl, rfl⟩⟩

/-- Witness for C10: a successful creation against the empty store. -/
theorem create_products_location_is_root_witness :
    (create_products [] [("Content-Type", "application/json")] hatPayload).1.status
      = 201 ∧
    (create_products [] [("Content-Type", "application/json")] hatPayload).1.location
      = some "/" :=
  ⟨rfl,
   (create_products_location_is_root [] [("Content-Type", "application/json")]
      hatPayload rfl).1⟩

/-! ### Update on unpersisted or missing products -/

/-- C5: `update` on an entity whose id is null fails with a validation error
and never creates a row, while update against a non-null but nonexistent id
is a distinct not-found condition handled at the handler layer: the PUT
handler responds 404 and leaves the store unchanged. -/
theorem update_null_id_contract (store : List Product) (p : Product)
    (product_id : Int) (headers : List (String × String)) (body : Json)
    (hp : p.id = none) (hfind : Product.find store product_id = none) :
    Product.update store p = .error ⟨"Update called with empty ID field"⟩ ∧
    (update_products store product_id headers body).2 = store ∧
    (check_content_type headers "application/json" = none →
      (update_products store product_id headers body).1 = ⟨404, none, none⟩) := by
  refine ⟨?_, ?_, ?_⟩
  · simp only [Product.update, hp]
  · cases hcc : check_content_type headers "application/json" with
    | some v =>
      obtain ⟨st, msg⟩ := v
      simp only [update_products, hcc]
    | none =>
      simp only [update_products, hcc, hfind]
  · intro hcc
    simp only [update_products, hcc, hfind]

/-- Witness for C5: an unpersisted product and a store without id 5. -/
theorem update_null_id_contract_witness :
    Product.update [] Product.new = .error ⟨"Update called with empty ID field"⟩ ∧
    (update_products [hatProduct] 5 [("Content-Type", "application/json")]
        Json.null).1 = ⟨404, none, none⟩ :=
  ⟨(update_null_id_contract [] Product.new 5 [] Json.null rfl rfl).1,
   (update_null_id_contract [hatProduct] Product.new 5
      [("Content-Type", "application/json")] Json.null rfl rfl).2.2 rfl⟩

/-! ### Serialization round trip -/

/-- C4: deserializing a serialized Product reconstructs an entity equal to the
original in name, description, price, available and category — every field
with the possible exception of the store-assigned id, which stays that of the
entity deserialized into. -/
theorem deserialize_serialize_roundtrip (q e : Product) :
    e.deserialize q.serialize = .ok { q with id := e.id } := by
  have hcat := Category.fromName_name q.category
  simp [Product.serialize, Product.deserialize, Json.asString, Json.asDecimal,
    List.lookup, hcat, Decimal.parse_render]

/-! ### The update handler -/

theorem deserialize_obj_eval (p : Product) (fields : List (String × Json))
    (nameVal priceVal catVal : Json) (b : Bool) (c : Category)
    (hname : fields.lookup "name" = some nameVal)
    (hprice : fields.lookup "price" = some priceVal)
    (havail : fields.lookup "available" = some (.bool b))
    (hcat : fields.lookup "category" = some catVal)
    (hfrom : Category.fromName? catVal.asString = some c) :
    p.deserialize (.obj fields) = .ok { p with
      name := nameVal.asString
      description := ((fields.lookup "description").map Json.asString).getD p.description
      price := priceVal.asDecimal
      available := b
      category := c } := by
  simp only [Product.deserialize, hname, hprice, havail, hcat, hfrom]

theorem deserialize_obj_ok (p p' : Product) (fields : List (String × Json))
    (h : p.deserialize (.obj fields) = .ok p') :
    p'.id = p.id ∧
    (fields.lookup "description" = none → p'.description = p.description) ∧
    (∀ v, fields.lookup "description" = some v → p'.description = v.asString) ∧
    (∀ v, fields.lookup "name" = some v → p'.name = v.asString) := by
  cases hname : fields.lookup "name" with
  | none =>
    exfalso
    simp only [Product.deserialize, hname] at h
    exact Except.noConfusion h
  | some nameVal =>
    cases hprice : fields.lookup "price" with
    | none =>
      exfalso
      simp only [Product.deserialize, hname, hprice] at h
      exact Except.noConfusion h
    | some priceVal =>
      cases havail : fields.lookup "available" with
      | none =>
        exfalso
        simp only [Product.deserialize, hname, hprice, havail] at h
        exact Except.noConfusion h
      | some availVal =>
        cases availVal with
        | str s =>
          exfalso
          simp only [Product.deserialize, hname, hprice, havail] at h
          exact Except.noConfusion h
        | num d =>
          exfalso
          simp only [Product.deserialize, hname, hprice, havail] at h
          exact Except.noConfusion h
        | null =>
          exfalso
          simp only [Product.deserialize, hname, hprice, havail] at h
          exact Except.noConfusion h
        | arr es =>
          exfalso
          simp only [Product.deserialize, hname, hprice, havail] at h
          exact Except.noConfusion h
        | obj fs =>
          exfalso
          simp only [Product.deserialize, hname, hprice, havail] at h
          exact Except.noConfusion h
        | bool b =>
          cases hcat : fields.lookup "category" with
          | none =>
            exfalso
            simp only [Product.deserialize, hname, hprice, havail, hcat] at h
            exact Except.noConfusion h
          | some catVal =>
            cases hfrom : Category.fromName? catVal.asString with
            | none =>
              exfalso
              simp only [Product.deserialize, hname, hprice, havail, hcat, hfrom] at h
              exact Except.noConfusion h
            | some c =>
              rw [deserialize_obj_eval p fields nameVal priceVal catVal b c
                hname hprice havail hcat hfrom] at h
              injection h with h1
              subst h1
              refine ⟨rfl, ?_, ?_, ?_⟩
              · intro hd
                simp [hd]
              · intro v hd
                simp [hd]
              · intro v hv
                injection hv with hv1
                subst hv1
                rfl

theorem deserialize_ok_id (p p' : Product) (data : Json)
    (h : p.deserialize data = .ok p') : p'.id = p.id := by
  cases data with
  | obj fields => exact (deserialize_obj_ok p p' fields h).1
  | str s => exact Except.noConfusion h
  | num d => exact Except.noConfusion h
  | bool b => exact Except.noConfusion h
  | null => exact Except.noConfusion h
  | arr es => exact Except.noConfusion h

/-- C9: PUT `/products/<id>` with a valid JSON body responds 404 when no
product has that id; when one does, it responds 200 with the updated
serialization, the product's id is unchanged, the supplied description
appears on the updated product, and a description the body does not supply
stays unchanged. -/
theorem update_products_contract (store : List Product) (product_id : Int)
    (headers : List (String × String)) (body : Json)
    (hct : headers.lookup "Content-Type" = some "application/json") :
    (Product.find store product_id = none →
      (update_products store product_id headers body).1 = ⟨404, none, none⟩) ∧
    (∀ p p', Product.find store product_id = some p →
      p.deserialize body = .ok p' →
      (update_products store product_id headers body).1 =
        ⟨200, some p'.serialize, some (url_for_product product_id)⟩ ∧
      p'.id = p.id ∧
      (∀ fields, body = .obj fields →
        ((∀ v, fields.lookup "description" = some v →
            p'.description = v.asString) ∧
         (fields.lookup "description" = none →
            p'.description = p.description)))) := by
  have hcc : check_content_type headers "application/json" = none := by
    simp only [check_content_type, hct, if_pos]
  constructor
  · intro hfind
    simp only [update_products, hcc, hfind]
  · intro p p' hfind hdes
    have hpid : p.id = some product_id := by
      have := List.find?_some hfind
      simpa using this
    have hid : p'.id = p.id := deserialize_ok_id p p' body hdes
    have hpid2 : p'.id = some product_id := by rw [hid, hpid]
    cases hupd : Product.update store p' with
    | error e =>
      exfalso
      unfold Product.update at hupd
      rw [hpid2] at hupd
      exact Except.noConfusion hupd
    | ok store2 =>
      refine ⟨?_, hid, ?_⟩
      · simp only [update_products, hcc, hfind, hdes, hupd]
      · intro fields hbody
        subst hbody
        have hh := deserialize_obj_ok p p' fields hdes
        exact ⟨hh.2.2.1, hh.2.1⟩

/-- Witness for C9: updating the only product gives 200; a nonexistent id
gives 404. -/
theorem update_products_contract_witness :
    (update_products [hatProduct] 1 [("Content-Type", "application/json")]
        updatePayload).1.status = 200 ∧
    (update_products [hatProduct] 2 [("Content-Type", "application/json")]
        updatePayload).1 = ⟨404, none, none⟩ := by
  constructor
  · have h := ((update_products_contract [hatProduct] 1
        [("Content-Type", "application/json")] updatePayload rfl).2 hatProduct
        ⟨some 1, "Fedora", "unknown", ⟨1250, 2⟩, true, Category.CLOTHS⟩ rfl rfl).1
    rw [h]
  · exact (update_products_contract [hatProduct] 2
      [("Content-Type", "application/json")] updatePayload rfl).1 rfl

theorem deserialize_error_case (p : Product) (data : Json)
    (e : DataValidationError) (herr : p.deserialize data = .error e)
    (hrej : deserializeRejects data = true) (motive : Product → Prop) :
    ((∃ e2, p.deserialize data = .error e2) ↔ deserializeRejects data = true) ∧
    (∀ p', p.deserialize data = .ok p' → motive p') := by
  refine ⟨⟨fun _ => hrej, fun _ => ⟨e, herr⟩⟩, ?_⟩
  intro p' h
  rw [herr] at h
  exact Except.noConfusion h

/-- C3: deserialize fails with a validation error exactly when the spec's
failure condition holds — the input is not a mapping, a required key (`name`,
`price`, `available`, `category`) is absent, `available` is present but not a
genuine boolean, or `category` names something outside the enumeration — and
otherwise it succeeds with a fully-populated Product whose wire fields come
from the mapping. -/
theorem deserialize_error_iff (p : Product) (data : Json) :
    ((∃ e, p.deserialize data = .error e) ↔ deserializeRejects data = true) ∧
    (∀ p', p.deserialize data = .ok p' →
      ∃ fields, data = .obj fields ∧
        (∃ v, fields.lookup "name" = some v ∧ p'.name = v.asString) ∧
        (∃ v, fields.lookup "price" = some v ∧ p'.price = v.asDecimal) ∧
        (∃ b, fields.lookup "available" = some (.bool b) ∧ p'.available = b) ∧
        (∃ v c, fields.lookup "category" = some v ∧
          Category.fromName? v.asString = some c ∧ p'.category = c)) := by
  cases data with
  | str s => exact ⟨⟨fun _ => rfl, fun _ => ⟨_, rfl⟩⟩, fun p' h => Except.noConfusion h⟩
  | num d => exact ⟨⟨fun _ => rfl, fun _ => ⟨_, rfl⟩⟩, fun p' h => Except.noConfusion h⟩
  | bool b => exact ⟨⟨fun _ => rfl, fun _ => ⟨_, rfl⟩⟩, fun p' h => Except.noConfusion h⟩
  | null => exact ⟨⟨fun _ => rfl, fun _ => ⟨_, rfl⟩⟩, fun p' h => Except.noConfusion h⟩
  | arr es => exact ⟨⟨fun _ => rfl, fun _ => ⟨_, rfl⟩⟩, fun p' h => Except.noConfusion h⟩
  | obj fields =>
    cases hname : fields.lookup "name" with
    | none =>
      refine deserialize_error_case p _ ⟨"Invalid product: missing name"⟩ ?_ ?_ _
      · simp only [Product.deserialize, hname]
      · simp [deserializeRejects, hname]
    | some nameVal =>
      cases hprice : fields.lookup "price" with
      | none =>
        refine deserialize_error_case p _ ⟨"Invalid product: missing price"⟩ ?_ ?_ _
        · simp only [Product.deserialize, hname, hprice]
        · simp [deserializeRejects, hname, hprice]
      | some priceVal =>
        cases havail : fields.lookup "available" with
        | none =>
          refine deserialize_error_case p _
            ⟨"Invalid product: missing available"⟩ ?_ ?_ _
          · simp only [Product.deserialize, hname, hprice, havail]
          · simp [deserializeRejects, hname, hprice, havail]
        | some availVal =>
          cases availVal with
          | str s =>
            refine deserialize_error_case p _
              ⟨"Invalid type for boolean [available]"⟩ ?_ ?_ _
            · simp only [Product.deserialize, hname, hprice, havail]
            · simp [deserializeRejects, hname, hprice, havail, Json.isBool]
          | num d =>
            refine deserialize_error_case p _
              ⟨"Invalid type for boolean [available]"⟩ ?_ ?_ _
            · simp only [Product.deserialize, hname, hprice, havail]
            · simp [deserializeRejects, hname, hprice, havail, Json.isBool]
          | null =>
            refine deserialize_error_case p _
              ⟨"Invalid type for boolean [available]"⟩ ?_ ?_ _
            · simp only [Product.deserialize, hname, hprice, havail]
            · simp [deserializeRejects, hname, hprice, havail, Json.isBool]
          | arr es =>
            refine deserialize_error_case p _
              ⟨"Invalid type for boolean [available]"⟩ ?_ ?_ _
            · simp only [Product.deserialize, hname, hprice, havail]
            · simp [deserializeRejects, hname, hprice, havail, Json.isBool]
          | obj fs =>
            refine deserialize_error_case p _
              ⟨"Invalid type for boolean [available]"⟩ ?_ ?_ _
            · simp only [Product.deserialize, hname, hprice, havail]
            · simp [deserializeRejects, hname, hprice, havail, Json.isBool]
          | bool b =>
            cases hcat : fields.lookup "category" with
            | none =>
              refine deserialize_error_case p _
                ⟨"Invalid product: missing category"⟩ ?_ ?_ _
              · simp only [Product.deserialize, hname, hprice, havail, hcat]
              · simp [deserializeRejects, hname, hprice, havail, hcat, Json.isBool]
            | some catVal =>
              cases hfrom : Category.fromName? catVal.asString with
              | none =>
                refine deserialize_error_case p _
                  ⟨"Invalid attribute: category"⟩ ?_ ?_ _
                · simp only [Product.deserialize, hname, hprice, havail, hcat, hfrom]
                · simp [deserializeRejects, hname, hprice, havail, hcat, hfrom,
                    Json.isBool]
              | some c =>
                have hok := deserialize_obj_eval p fields nameVal priceVal catVal b c
                  hname hprice havail hcat hfrom
                have hrej : deserializeRejects (.obj fields) = false := by
                  simp [deserializeRejects, hname, hprice, havail, hcat, hfrom,
                    Json.isBool]
                constructor
                · constructor
                  · rintro ⟨e, he⟩
                    rw [hok] at he
                    exact Except.noConfusion he
                  · intro hr
                    rw [hrej] at hr
                    exact Bool.noConfusion hr
                · intro p' h
                  rw [hok] at h
                  injection h with h1
                  subst h1
                  exact ⟨fields, rfl, ⟨nameVal, hname, rfl⟩, ⟨priceVal, hprice, rfl⟩,
                    ⟨b, havail, rfl⟩, ⟨catVal, c, hcat, hfrom, rfl⟩⟩

/-- Witness for C3: a non-mapping payload is rejected, and the valid payload
is accepted with every wire field populated from the mapping. -/
theorem deserialize_error_iff_witness :
    (∃ e, Product.new.deserialize (Json.str "junk") = .error e) ∧
    (∃ fields, hatPayload = .obj fields ∧
      (∃ v, fields.lookup "name" = some v ∧
        (⟨none, "Fedora", "A red hat", ⟨1250, 2⟩, true, Category.CLOTHS⟩ :
          Product).name = v.asString) ∧
      (∃ v, fields.lookup "price" = some v ∧
        (⟨none, "Fedora", "A red hat", ⟨1250, 2⟩, true, Category.CLOTHS⟩ :
          Product).price = v.asDecimal) ∧
      (∃ b, fields.lookup "available" = some (.bool b) ∧
        (⟨none, "Fedora", "A red hat", ⟨1250, 2⟩, true, Category.CLOTHS⟩ :
          Product).available = b) ∧
      (∃ v c, fields.lookup "category" = some v ∧
        Category.fromName? v.asString = some c ∧
        (⟨none, "Fedora", "A red hat", ⟨1250, 2⟩, true, Category.CLOTHS⟩ :
          Product).category = c)) :=
  ⟨(deserialize_error_iff Product.new (Json.str "junk")).1.mpr rfl,
   (deserialize_error_iff Product.new hatPayload).2
     ⟨none, "Fedora", "A red hat", ⟨1250, 2⟩, true, Category.CLOTHS⟩ rfl⟩
